import Mathlib

/-!
Shallow embedding of the measurement / view-transform core of the
dicom-tag-viewer repository, together with proofs about it.

Source files embedded here:
* `src/unnamed/part_001`  (`ImageDisplayModule`): view transform, render pass,
  `canvasToImageCoords`, `imageToCanvasCoords`.
* `src/unnamed/part_003`  (`MeasurementModule`): overlay render pass,
  `addMeasurementPoint`, `completeMeasurement`, `normalizePoint`.
* `src/static/js/modules/measurementEngine.js` (`MeasurementEngine`): the
  measurement store, its geometry calculations and calibration handling.
* `src/static/js/measurementController.js` and the identical functions in
  `src/static/js/viewerController.js` (the legacy controller): click handling,
  completion, and the pixel-only geometry helpers.

Modelling conventions:
* JS numbers are modelled by `ℚ` where the code is purely rational arithmetic
  and by `ℝ` where it uses `Math.sqrt` / `Math.acos` / `Math.cos` / `Math.sin`.
* `Math.round` is `⌊q + 1/2⌋` (round half toward +∞), as in JS.
* JS `a || b` on numbers treats `undefined`/`0` as falsy; absent object fields
  are `Option.none`.
* Thrown `Error`s are modelled with `Except`; the store functions return the
  post-state together with the result, and a `throw` that happens before any
  mutation returns the unchanged input state.
* `toFixed` string rendering of labels is abstracted: a label is modelled as
  the (numeric value, unit) pair handed to `formatMeasurementLabel`.
* `Date.now()` (an ambient clock) is passed in as a parameter where it matters
  and modelled as `0` where it does not.
-/

namespace DicomViewer

/-- JS `Math.round`: round half toward positive infinity, `⌊q + 1/2⌋`. -/
def jsRound (q : ℚ) : ℤ := ⌊q + 1 / 2⌋

/-- JS `a || b` where `a` is an optional number: `undefined` and `0` fall
through to `b`. -/
def jsOr (a : Option ℚ) (b : ℚ) : ℚ :=
  match a with
  | some v => if v = 0 then b else v
  | none => b

/-- JS `a || b` where both operands are present numbers: `0` falls through. -/
def jsSelect (a b : ℚ) : ℚ := if a = 0 then b else a

/-- Double-precision machine epsilon `2⁻⁵²`, the tolerance meant by the spec's
"within floating-point epsilon". -/
def machineEps : ℚ := 1 / 2 ^ 52

/-- The view transform held in `ImageDisplayModule.this.transform`
(part_001:16-21): scale, translate, and rotation in degrees. -/
structure Transform where
  scale : ℚ
  translateX : ℚ
  translateY : ℚ
  rotation : ℚ
deriving DecidableEq

/-- Result object of `ImageDisplayModule.canvasToImageCoords`
(part_001:332-337): `x`/`y` are rounded and clamped to the image bounds,
`imageX`/`imageY` are rounded only. -/
structure ImageCoords where
  x : ℤ
  y : ℤ
  imageX : ℤ
  imageY : ℤ
deriving DecidableEq

/-- The unrounded, unclamped x-coordinate computed inside
`canvasToImageCoords` (part_001:323-326):
`(canvasX - centerX) / scale - translateX + width / 2`. -/
def canvasToImageRawX (t : Transform) (w : ℕ) (cw canvasX : ℚ) : ℚ :=
  (canvasX - cw / 2) / t.scale - t.translateX + (w : ℚ) / 2

/-- The unrounded, unclamped y-coordinate computed inside
`canvasToImageCoords` (part_001:327-330). -/
def canvasToImageRawY (t : Transform) (h : ℕ) (ch canvasY : ℚ) : ℚ :=
  (canvasY - ch / 2) / t.scale - t.translateY + (h : ℚ) / 2

/-- `ImageDisplayModule.canvasToImageCoords` (part_001:315-338).
`w`, `h` are `imageData.width/height`; `cw`, `ch` are the canvas dimensions.
The `x`/`y` fields are `Math.round(Math.max(0, Math.min(dim - 1, raw)))`;
the `imageX`/`imageY` fields are `Math.round(raw)` with no clamping. -/
def canvasToImageCoords (t : Transform) (w h : ℕ) (cw ch canvasX canvasY : ℚ) :
    ImageCoords :=
  let imageX := canvasToImageRawX t w cw canvasX
  let imageY := canvasToImageRawY t h ch canvasY
  { x := jsRound (max 0 (min ((w : ℚ) - 1) imageX))
    y := jsRound (max 0 (min ((h : ℚ) - 1) imageY))
    imageX := jsRound imageX
    imageY := jsRound imageY }

/-- `ImageDisplayModule.imageToCanvasCoords` (part_001:343-360):
`((imageX - width/2 + translateX) * scale + centerX, …)`. No rotation term. -/
def imageToCanvasCoords (t : Transform) (w h : ℕ) (cw ch imageX imageY : ℚ) :
    ℚ × ℚ :=
  ((imageX - (w : ℚ) / 2 + t.translateX) * t.scale + cw / 2,
   (imageY - (h : ℚ) / 2 + t.translateY) * t.scale + ch / 2)

/-- The rotation angle in radians used by the image render pass
(part_001:140): `transform.rotation * Math.PI / 180`. -/
noncomputable def rotationRadians (t : Transform) : ℝ :=
  (t.rotation : ℝ) * Real.pi / 180

/-- Point mapping of the image layer's render pass (part_001:132-142).
The canvas context receives, in order: `translate(centerX, centerY)`,
`scale(s, s)`, `rotate(rotation·π/180)`, `translate(translateX, translateY)`,
`translate(-width/2, -height/2)`; a drawn image-space point therefore first
gets the two translations, then the rotation, then the scale, then the shift
to the canvas center. -/
noncomputable def imageLayerPointMap (t : Transform) (w h : ℕ) (cw ch : ℚ)
    (p : ℝ × ℝ) : ℝ × ℝ :=
  let θ := rotationRadians t
  let q : ℝ × ℝ :=
    ((p.1 - (w : ℝ) / 2) + (t.translateX : ℝ), (p.2 - (h : ℝ) / 2) + (t.translateY : ℝ))
  let r : ℝ × ℝ :=
    (Real.cos θ * q.1 - Real.sin θ * q.2, Real.sin θ * q.1 + Real.cos θ * q.2)
  ((t.scale : ℝ) * r.1 + (cw : ℝ) / 2, (t.scale : ℝ) * r.2 + (ch : ℝ) / 2)

/-- Point mapping of the overlay (measurement) layer's render pass
(part_003:392-395 together with the local coordinates of part_003:434-437).
The context receives `translate(width/2, height/2)`, `scale(s, s)`,
`translate(translateX, translateY)` — no `rotate` call — and measurements are
drawn at local coordinates `(imageX - width/2, imageY - height/2)`. -/
noncomputable def overlayPointMap (t : Transform) (w h : ℕ) (cw ch : ℚ)
    (p : ℝ × ℝ) : ℝ × ℝ :=
  let q : ℝ × ℝ :=
    ((p.1 - (w : ℝ) / 2) + (t.translateX : ℝ), (p.2 - (h : ℝ) / 2) + (t.translateY : ℝ))
  ((t.scale : ℝ) * q.1 + (cw : ℝ) / 2, (t.scale : ℝ) * q.2 + (ch : ℝ) / 2)

/-- Measurement type tags (`"distance" | "angle" | "area"`). -/
inductive MeasType where
  | distance
  | angle
  | area
deriving DecidableEq

/-- A normalized measurement point as stored by
`MeasurementEngine.normalizePoint` (measurementEngine.js:369-379). -/
structure Point where
  x : ℚ
  y : ℚ
  imageX : ℚ
  imageY : ℚ
  relativeX : ℚ
  relativeY : ℚ
  timestamp : ℕ
deriving DecidableEq

instance : Inhabited Point := ⟨⟨0, 0, 0, 0, 0, 0, 0⟩⟩

/-- A raw point as supplied to the store: any of the numeric fields may be
absent (`undefined`). -/
structure RawPoint where
  x : Option ℚ
  y : Option ℚ
  imageX : Option ℚ
  imageY : Option ℚ
  relativeX : Option ℚ
  relativeY : Option ℚ
  timestamp : Option ℕ
deriving DecidableEq

/-- `MeasurementEngine.normalizePoint` (measurementEngine.js:369-379):
`x: point.x || 0`, `imageX: point.imageX || point.x || 0`, etc.
`timestamp: point.timestamp || Date.now()` — the ambient clock is modelled
as `0`. -/
def normalizePoint (p : RawPoint) : Point :=
  { x := jsOr p.x 0
    y := jsOr p.y 0
    imageX := jsOr p.imageX (jsOr p.x 0)
    imageY := jsOr p.imageY (jsOr p.y 0)
    relativeX := jsOr p.relativeX 0
    relativeY := jsOr p.relativeY 0
    timestamp := p.timestamp.getD 0 }

/-- `MeasurementModule.normalizePoint` (part_003:277-285), applied to the
result of `canvasToImageCoords`: `imageX: imageCoords.imageX || imageCoords.x`
with every field present; `timestamp: Date.now()` is the parameter `ts`.
The `relativeX/relativeY` fields are not produced by this function. -/
def moduleNormalizePoint (ic : ImageCoords) (ts : ℕ) : RawPoint :=
  { x := some (ic.x : ℚ)
    y := some (ic.y : ℚ)
    imageX := some (jsSelect (ic.imageX : ℚ) (ic.x : ℚ))
    imageY := some (jsSelect (ic.imageY : ℚ) (ic.y : ℚ))
    relativeX := none
    relativeY := none
    timestamp := some ts }

/-- A measurement label, abstracted to the (value, unit) pair handed to
`formatMeasurementLabel` (measurementEngine.js:387-405); the `toFixed`
decimal rendering is not modelled. -/
structure Label where
  num : ℝ
  unit : String

/-- `MeasurementEngine.formatMeasurementLabel` under the label abstraction. -/
def formatMeasurementLabel (value : ℝ) (unit : String) : Label :=
  ⟨value, unit⟩

open Classical in
/-- JS `a || b` on an optional real computed value (`realDistance || pixelDistance`
etc.): `null` and `0` fall through to `b`. -/
noncomputable def jsOrR (a : Option ℝ) (b : ℝ) : ℝ :=
  match a with
  | some v => if v = 0 then b else v
  | none => b

/-- Return object of `MeasurementEngine.calculateDistance`
(measurementEngine.js:126-158), without the `details` diagnostics. -/
structure DistanceResult where
  pixelDistance : ℝ
  realDistance : Option ℝ
  unit : String
  value : ℝ
  label : Label

/-- `MeasurementEngine.calculateDistance` (measurementEngine.js:126-158).
`pixelSpacing` is `[rowSpacing, colSpacing]`; `realDx = dx * colSpacing`,
`realDy = dy * rowSpacing`. The source receives the raw `points` array; at
every call site the coordinate fields are present, where raw and normalized
`imageX/imageY` agree, so the embedding takes the normalized points. -/
noncomputable def calculateDistance (points : List Point)
    (pixelSpacing : Option (ℚ × ℚ)) : DistanceResult :=
  let p1 := points.getD 0 default
  let p2 := points.getD 1 default
  let dx : ℚ := p2.imageX - p1.imageX
  let dy : ℚ := p2.imageY - p1.imageY
  let pixelDistance : ℝ := Real.sqrt ((dx : ℝ) * (dx : ℝ) + (dy : ℝ) * (dy : ℝ))
  let realDistance : Option ℝ :=
    pixelSpacing.map fun rc =>
      let realDx : ℚ := dx * rc.2
      let realDy : ℚ := dy * rc.1
      Real.sqrt ((realDx : ℝ) * (realDx : ℝ) + (realDy : ℝ) * (realDy : ℝ))
  let unit : String := if pixelSpacing.isSome then "mm" else "px"
  let value := jsOrR realDistance pixelDistance
  { pixelDistance := pixelDistance
    realDistance := realDistance
    unit := unit
    value := value
    label := formatMeasurementLabel value unit }

/-- Return object of `MeasurementEngine.calculateAngle`
(measurementEngine.js:165-212), without the `details` diagnostics. -/
structure AngleResult where
  angle : ℝ
  value : ℝ
  label : Label
  unit : String

open Classical in
/-- `MeasurementEngine.calculateAngle` (measurementEngine.js:165-212):
vectors from the vertex, `cosAngle = clamp(dot/(mag1·mag2), -1, 1)`,
`acos` converted to degrees, with an early `0` return when either vector has
zero magnitude, and a (dead) `angleDeg > 180` branch. -/
noncomputable def calculateAngle (points : List Point) : AngleResult :=
  let p1 := points.getD 0 default
  let vertex := points.getD 1 default
  let p2 := points.getD 2 default
  let v1x : ℚ := p1.imageX - vertex.imageX
  let v1y : ℚ := p1.imageY - vertex.imageY
  let v2x : ℚ := p2.imageX - vertex.imageX
  let v2y : ℚ := p2.imageY - vertex.imageY
  let dot : ℚ := v1x * v2x + v1y * v2y
  let mag1 : ℝ := Real.sqrt ((v1x : ℝ) * (v1x : ℝ) + (v1y : ℝ) * (v1y : ℝ))
  let mag2 : ℝ := Real.sqrt ((v2x : ℝ) * (v2x : ℝ) + (v2y : ℝ) * (v2y : ℝ))
  if mag1 = 0 ∨ mag2 = 0 then
    { angle := 0, value := 0, label := ⟨0, "°"⟩, unit := "°" }
  else
    let cosAngle : ℝ := max (-1) (min 1 ((dot : ℝ) / (mag1 * mag2)))
    let angleRad : ℝ := Real.arccos cosAngle
    let angleDeg : ℝ := angleRad * 180 / Real.pi
    let finalAngle : ℝ := if angleDeg > 180 then 360 - angleDeg else angleDeg
    { angle := finalAngle
      value := finalAngle
      label := formatMeasurementLabel finalAngle "°"
      unit := "°" }

/-- The Shoelace accumulation loop of `MeasurementEngine.calculateArea`
(measurementEngine.js:224-228): for `i < n`, `j = (i+1) % n`,
`sum += xᵢ·yⱼ - xⱼ·yᵢ` over the `imageX/imageY` coordinates.
`MeasurementController.calculateArea` runs the identical loop. -/
def shoelaceSum (pts : List Point) : ℚ :=
  (List.range pts.length).foldl
    (fun acc i =>
      let j := (i + 1) % pts.length
      acc + (pts.getD i default).imageX * (pts.getD j default).imageY
          - (pts.getD j default).imageX * (pts.getD i default).imageY)
    0

/-- Return object of `MeasurementEngine.calculateArea`
(measurementEngine.js:219-253), without the `details` diagnostics. -/
structure AreaResult where
  pixelArea : ℚ
  realArea : Option ℚ
  unit : String
  value : ℚ
  label : Label

/-- `MeasurementEngine.calculateArea` (measurementEngine.js:219-253):
`pixelArea = |shoelace| / 2`; with spacing `[row, col]`,
`realArea = pixelArea * rowSpacing * colSpacing`, unit `mm²`;
`value = realArea || pixelArea`. -/
def calculateArea (pts : List Point) (pixelSpacing : Option (ℚ × ℚ)) :
    AreaResult :=
  let pixelArea : ℚ := |shoelaceSum pts| / 2
  let realArea : Option ℚ := pixelSpacing.map fun rc => pixelArea * rc.1 * rc.2
  let unit : String := if pixelSpacing.isSome then "mm²" else "px²"
  let value : ℚ := jsOr realArea pixelArea
  { pixelArea := pixelArea
    realArea := realArea
    unit := unit
    value := value
    label := formatMeasurementLabel (value : ℝ) unit }

/-- A stored measurement (measurementEngine.js:54-61 etc.), restricted to the
fields the verified claims speak about; `createdAt`/`updatedAt`/`options` and
the `details` diagnostics are not modelled. -/
structure Measurement where
  id : ℕ
  type : MeasType
  points : List Point
  value : ℝ
  unit : String
  label : Label

/-- The mutable state of the `MeasurementEngine` singleton
(measurementEngine.js:9-14): the measurement `Map` (insertion-ordered, so a
list), the optional `[rowSpacing, colSpacing]` pair, and the id counter. -/
structure EngineState where
  measurements : List Measurement
  pixelSpacing : Option (ℚ × ℚ)
  measurementId : ℕ

/-- The typed failures thrown by the store: wrong point count in the
`create…Measurement` validators, unknown id in `updateMeasurement`. -/
inductive JsError where
  | invalidPointCount
  | measurementNotFound
deriving DecidableEq

/-- The derived `value` of a measurement of the given type from its points and
the current calibration, as produced by the corresponding
`calculate…` function. -/
noncomputable def derivedValue (t : MeasType) (pts : List Point)
    (sp : Option (ℚ × ℚ)) : ℝ :=
  match t with
  | MeasType.distance => (calculateDistance pts sp).value
  | MeasType.angle => (calculateAngle pts).value
  | MeasType.area => ((calculateArea pts sp).value : ℝ)

/-- The derived `unit` of a measurement of the given type, as produced by the
corresponding `calculate…` function. -/
noncomputable def derivedUnit (t : MeasType) (pts : List Point)
    (sp : Option (ℚ × ℚ)) : String :=
  match t with
  | MeasType.distance => (calculateDistance pts sp).unit
  | MeasType.angle => (calculateAngle pts).unit
  | MeasType.area => (calculateArea pts sp).unit

/-- The derived `label` of a measurement of the given type. -/
noncomputable def derivedLabel (t : MeasType) (pts : List Point)
    (sp : Option (ℚ × ℚ)) : Label :=
  match t with
  | MeasType.distance => (calculateDistance pts sp).label
  | MeasType.angle => (calculateAngle pts).label
  | MeasType.area => (calculateArea pts sp).label

/-- `MeasurementEngine.createDistanceMeasurement` (measurementEngine.js:49-67):
throws before touching any state when `points.length !== 2`; otherwise bumps
the id counter, stores the measurement built from the normalized points and
the current calibration, and returns it. -/
noncomputable def createDistanceMeasurement (points : List RawPoint)
    (s : EngineState) : EngineState × Except JsError Measurement :=
  if points.length ≠ 2 then (s, Except.error JsError.invalidPointCount)
  else
    let newId := s.measurementId + 1
    let normPts := points.map normalizePoint
    let m : Measurement :=
      { id := newId
        type := MeasType.distance
        points := normPts
        value := derivedValue MeasType.distance normPts s.pixelSpacing
        unit := derivedUnit MeasType.distance normPts s.pixelSpacing
        label := derivedLabel MeasType.distance normPts s.pixelSpacing }
    ({ s with measurementId := newId, measurements := s.measurements ++ [m] },
     Except.ok m)

/-- `MeasurementEngine.createAngleMeasurement` (measurementEngine.js:75-93):
throws before touching any state when `points.length !== 3`. -/
noncomputable def createAngleMeasurement (points : List RawPoint)
    (s : EngineState) : EngineState × Except JsError Measurement :=
  if points.length ≠ 3 then (s, Except.error JsError.invalidPointCount)
  else
    let newId := s.measurementId + 1
    let normPts := points.map normalizePoint
    let m : Measurement :=
      { id := newId
        type := MeasType.angle
        points := normPts
        value := derivedValue MeasType.angle normPts s.pixelSpacing
        unit := derivedUnit MeasType.angle normPts s.pixelSpacing
        label := derivedLabel MeasType.angle normPts s.pixelSpacing }
    ({ s with measurementId := newId, measurements := s.measurements ++ [m] },
     Except.ok m)

/-- `MeasurementEngine.createAreaMeasurement` (measurementEngine.js:101-119):
throws before touching any state when `points.length < 3`. -/
noncomputable def createAreaMeasurement (points : List RawPoint)
    (s : EngineState) : EngineState × Except JsError Measurement :=
  if points.length < 3 then (s, Except.error JsError.invalidPointCount)
  else
    let newId := s.measurementId + 1
    let normPts := points.map normalizePoint
    let m : Measurement :=
      { id := newId
        type := MeasType.area
        points := normPts
        value := derivedValue MeasType.area normPts s.pixelSpacing
        unit := derivedUnit MeasType.area normPts s.pixelSpacing
        label := derivedLabel MeasType.area normPts s.pixelSpacing }
    ({ s with measurementId := newId, measurements := s.measurements ++ [m] },
     Except.ok m)

/-- One step of the `switch (measurement.type)` re-derivation used by
`updateMeasurement` and `recalculateAllMeasurements`
(measurementEngine.js:301-311, 627-637): `Object.assign` of the fresh
`calculate…` result onto the measurement; only the derived fields change. -/
noncomputable def recalcMeasurement (sp : Option (ℚ × ℚ)) (m : Measurement) :
    Measurement :=
  { m with
    value := derivedValue m.type m.points sp
    unit := derivedUnit m.type m.points sp
    label := derivedLabel m.type m.points sp }

/-- `MeasurementEngine.recalculateAllMeasurements`
(measurementEngine.js:623-643): re-derive every stored measurement from its
own points and the current calibration. -/
noncomputable def recalculateAllMeasurements (s : EngineState) : EngineState :=
  { s with measurements := s.measurements.map (recalcMeasurement s.pixelSpacing) }

/-- `MeasurementEngine.updateMeasurement` (measurementEngine.js:291-315):
throws `MeasurementNotFound` for an unknown id; otherwise replaces the point
list with the normalized new points and re-derives the measurement. -/
noncomputable def updateMeasurement (id : ℕ) (newPoints : List RawPoint)
    (s : EngineState) : EngineState × Except JsError Measurement :=
  match s.measurements.find? (fun m => m.id = id) with
  | none => (s, Except.error JsError.measurementNotFound)
  | some m =>
      let m' := recalcMeasurement s.pixelSpacing
        { m with points := newPoints.map normalizePoint }
      ({ s with
          measurements := s.measurements.map fun x => if x.id = id then m' else x },
       Except.ok m')

/-- Input to `MeasurementEngine.setPixelSpacing` (measurementEngine.js:20-41).
A string input is represented by the `parseFloat` results of its
backslash-split trimmed fields (`none` for `NaN`); an array input by its
numeric elements (on which the source's `map(parseFloat)` is the identity);
anything else by `other`. -/
inductive SpacingInput where
  | str (fields : List (Option ℚ))
  | arr (values : List ℚ)
  | other
deriving DecidableEq

/-- The parse-and-store phase of `MeasurementEngine.setPixelSpacing`
(measurementEngine.js:21-35): a string stores the pair only when it splits
into exactly two non-NaN floats; a two-element array is stored
unconditionally (`pixelSpacing.map(parseFloat)`); every other input leaves
the stored spacing as it was. The parsing is wrapped in `try/catch`, so this
phase is total. -/
def applyParsedSpacing (input : SpacingInput) (s : EngineState) : EngineState :=
  match input with
  | SpacingInput.str fields =>
      match fields with
      | [some a, some b] => { s with pixelSpacing := some (a, b) }
      | _ => s
  | SpacingInput.arr values =>
      match values with
      | [a, b] => { s with pixelSpacing := some (a, b) }
      | _ => s
  | SpacingInput.other => s

/-- `MeasurementEngine.setPixelSpacing` (measurementEngine.js:20-41): the
parse-and-store phase followed by recalculation of the existing measurements
when any are stored (measurementEngine.js:37-40). -/
noncomputable def setPixelSpacing (input : SpacingInput) (s : EngineState) :
    EngineState :=
  let s1 := applyParsedSpacing input s
  if s1.measurements.length > 0 then recalculateAllMeasurements s1 else s1

/-- `calculateDistance` of measurementController.js:231-235 (duplicated in
viewerController.js): pixel-only Euclidean distance over `imageX/imageY`. -/
noncomputable def legacyCalculateDistance (p1 p2 : Point) : ℝ :=
  let dx : ℚ := p2.imageX - p1.imageX
  let dy : ℚ := p2.imageY - p1.imageY
  Real.sqrt ((dx : ℝ) * (dx : ℝ) + (dy : ℝ) * (dy : ℝ))

open Classical in
/-- `calculateAngle` of measurementController.js:238-253 (duplicated in
viewerController.js): same clamp-acos formula as the engine, without the
dead `> 180` branch. -/
noncomputable def legacyCalculateAngle (p1 vertex p2 : Point) : ℝ :=
  let v1x : ℚ := p1.imageX - vertex.imageX
  let v1y : ℚ := p1.imageY - vertex.imageY
  let v2x : ℚ := p2.imageX - vertex.imageX
  let v2y : ℚ := p2.imageY - vertex.imageY
  let dot : ℚ := v1x * v2x + v1y * v2y
  let mag1 : ℝ := Real.sqrt ((v1x : ℝ) * (v1x : ℝ) + (v1y : ℝ) * (v1y : ℝ))
  let mag2 : ℝ := Real.sqrt ((v2x : ℝ) * (v2x : ℝ) + (v2y : ℝ) * (v2y : ℝ))
  if mag1 = 0 ∨ mag2 = 0 then 0
  else
    Real.arccos (max (-1) (min 1 ((dot : ℝ) / (mag1 * mag2)))) * 180 / Real.pi

/-- `calculateArea` of measurementController.js:256-266 (duplicated in
viewerController.js): `0` for fewer than 3 points, else the same Shoelace
loop as the engine. -/
def legacyCalculateArea (pts : List Point) : ℚ :=
  if pts.length < 3 then 0
  else |shoelaceSum pts| / 2

/-- A legacy-controller measurement (measurementController.js:165-169):
`{type, points, id}` with `value`/`label` filled by
`recalculateMeasurement`. -/
structure LegacyMeasurement where
  type : MeasType
  points : List Point
  id : ℕ
  value : ℝ
  label : Label

/-- The fields of `viewer.measurementState` (viewerController.js:187-193)
relevant to point capture, completion, and selection. -/
structure LegacyState where
  mode : Option MeasType
  currentPoints : List Point
  measurements : List LegacyMeasurement
  selectedMeasurement : Option LegacyMeasurement
  selectedPointIndex : ℤ

/-- `recalculateMeasurement` of measurementController.js:203-228: fills
`value` and `label` by type, in pixel units only, when enough points are
present. -/
noncomputable def legacyRecalculateMeasurement (m : LegacyMeasurement) :
    LegacyMeasurement :=
  match m.type with
  | MeasType.distance =>
      if m.points.length ≥ 2 then
        let v := legacyCalculateDistance (m.points.getD 0 default) (m.points.getD 1 default)
        { m with value := v, label := ⟨v, "px"⟩ }
      else m
  | MeasType.angle =>
      if m.points.length ≥ 3 then
        let v := legacyCalculateAngle (m.points.getD 0 default)
          (m.points.getD 1 default) (m.points.getD 2 default)
        { m with value := v, label := ⟨v, "°"⟩ }
      else m
  | MeasType.area =>
      if m.points.length ≥ 3 then
        let v := legacyCalculateArea m.points
        { m with value := (v : ℝ), label := ⟨(v : ℝ), "px²"⟩ }
      else m

/-- `completeMeasurement` of measurementController.js:161-200 (identical in
viewerController.js:1004-1043): build the measurement from the accumulated
points (`id: Date.now()` is the parameter `newId`), recalculate it, push it,
clear `currentPoints`, clear the mode, and select the new measurement. It is
only invoked with an active mode; the `none` case is unreachable and modelled
as a no-op. -/
noncomputable def legacyCompleteMeasurement (st : LegacyState) (newId : ℕ) :
    LegacyState :=
  match st.mode with
  | none => st
  | some ty =>
      let m := legacyRecalculateMeasurement
        { type := ty, points := st.currentPoints, id := newId,
          value := 0, label := ⟨0, ""⟩ }
      { st with
        measurements := st.measurements ++ [m]
        currentPoints := []
        mode := none
        selectedMeasurement := some m
        selectedPointIndex := -1 }

/-- `handleMeasurementClick` of measurementController.js:139-158 (identical in
viewerController.js:982-1001): complete at exactly 2 points for distance and
3 for angle; area completes only via the context-menu handler. -/
noncomputable def legacyHandleMeasurementClick (st : LegacyState) (newId : ℕ) :
    LegacyState :=
  match st.mode with
  | some MeasType.distance =>
      if st.currentPoints.length = 2 then legacyCompleteMeasurement st newId else st
  | some MeasType.angle =>
      if st.currentPoints.length = 3 then legacyCompleteMeasurement st newId else st
  | some MeasType.area => st
  | none => st

/-- The measurement branch of `handleImageClick`
(viewerController.js:562-567): with an active measurement mode, push the
clicked image point onto `currentPoints` and run `handleMeasurementClick`.
The pure-selection branch (no active mode) is not modelled here. -/
noncomputable def legacyHandleImageClick (st : LegacyState) (point : Point)
    (newId : ℕ) : LegacyState :=
  match st.mode with
  | none => st
  | some _ =>
      legacyHandleMeasurementClick
        { st with currentPoints := st.currentPoints ++ [point] } newId

/-- `this.state.currentMeasurement` of the modular `MeasurementModule`
(part_003:244-247). -/
structure CurrentMeasurement where
  type : MeasType
  points : List RawPoint

/-- The fields of `MeasurementModule.state` (part_003:16-21) relevant to point
capture, together with the engine singleton it writes into. -/
structure ModuleState where
  mode : Option MeasType
  currentMeasurement : Option CurrentMeasurement
  engine : EngineState

/-- The `requiredPoints` table of part_003:256-260: `distance: 2`, `angle: 3`,
`area: Infinity`. -/
def requiredPoints : MeasType → ℕ∞
  | MeasType.distance => 2
  | MeasType.angle => 3
  | MeasType.area => ⊤

/-- `MeasurementModule.completeMeasurement` (part_003:290-318): dispatch the
accumulated points to the engine's `create…Measurement` (errors are swallowed
by the surrounding `try/catch`), then clear `currentMeasurement`. The mode is
left untouched. -/
noncomputable def moduleCompleteMeasurement (st : ModuleState) : ModuleState :=
  match st.currentMeasurement with
  | none => st
  | some cur =>
      let engine' :=
        match cur.type with
        | MeasType.distance => (createDistanceMeasurement cur.points st.engine).1
        | MeasType.angle => (createAngleMeasurement cur.points st.engine).1
        | MeasType.area => (createAreaMeasurement cur.points st.engine).1
      { st with engine := engine', currentMeasurement := none }

/-- `MeasurementModule.addMeasurementPoint` (part_003:241-272), guarded as in
`onInteraction_click` (part_003:199-203) which returns early when no mode is
active: normalize and append the clicked point, then complete when the count
reaches the type's requirement and the mode is not area. -/
noncomputable def moduleAddMeasurementPoint (ic : ImageCoords) (ts : ℕ)
    (st : ModuleState) : ModuleState :=
  match st.mode with
  | none => st
  | some t =>
      let cur : CurrentMeasurement :=
        match st.currentMeasurement with
        | none => { type := t, points := [moduleNormalizePoint ic ts] }
        | some c => { c with points := c.points ++ [moduleNormalizePoint ic ts] }
      let st1 := { st with currentMeasurement := some cur }
      if (cur.points.length : ℕ∞) ≥ requiredPoints t ∧ t ≠ MeasType.area then
        moduleCompleteMeasurement st1
      else st1

/-- Spec-side Shoelace formula, written as the spec states it:
`Σ (xᵢ·yᵢ₊₁ − xᵢ₊₁·yᵢ)` with the index taken cyclically. -/
def shoelaceSpec (pts : List Point) : ℚ :=
  ∑ i ∈ Finset.range pts.length,
    ((pts.getD i default).imageX * (pts.getD ((i + 1) % pts.length) default).imageY
      - (pts.getD ((i + 1) % pts.length) default).imageX * (pts.getD i default).imageY)

/-- Spec-side description of the stored coordinate of a point: the primary
field when present and nonzero, else the fallback field when present and
nonzero, else `0`. -/
def specStoredCoord (primary fallback : Option ℚ) : ℚ :=
  match primary with
  | some v =>
      if v ≠ 0 then v
      else
        match fallback with
        | some w => if w ≠ 0 then w else 0
        | none => 0
  | none =>
      match fallback with
      | some w => if w ≠ 0 then w else 0
      | none => 0

/-- Magnitude of the vector from `vertex` to `p` over the `imageX/imageY`
coordinates, as computed inside both `calculateAngle` implementations
(`Math.sqrt(vx*vx + vy*vy)`). -/
noncomputable def vecMag (p vertex : Point) : ℝ :=
  Real.sqrt (((p.imageX - vertex.imageX : ℚ) : ℝ) * ((p.imageX - vertex.imageX : ℚ) : ℝ)
    + ((p.imageY - vertex.imageY : ℚ) : ℝ) * ((p.imageY - vertex.imageY : ℚ) : ℝ))

/-- Dot product of the two vertex-based vectors of an angle measurement. -/
def vecDot (p1 p2 vertex : Point) : ℚ :=
  (p1.imageX - vertex.imageX) * (p2.imageX - vertex.imageX)
    + (p1.imageY - vertex.imageY) * (p2.imageY - vertex.imageY)

/-- Helper: build a measurement point at image coordinates `(x, y)`. -/
def mkPt (x y : ℚ) : Point :=
  { x := x, y := y, imageX := x, imageY := y, relativeX := 0, relativeY := 0,
    timestamp := 0 }

/-- The spec's test square `(0,0),(10,0),(10,10),(0,10)`. -/
def squarePoints : List Point := [mkPt 0 0, mkPt 10 0, mkPt 10 10, mkPt 0 10]

/-! ### Helper lemmas -/

theorem jsRound_mono {a b : ℚ} (h : a ≤ b) : jsRound a ≤ jsRound b :=
  Int.floor_le_floor (by linarith)

theorem jsRound_intCast (z : ℤ) : jsRound (z : ℚ) = z := by
  unfold jsRound
  rw [Int.floor_int_add]
  norm_num

theorem jsRound_zero : jsRound 0 = 0 := by
  simpa using jsRound_intCast 0

theorem jsRound_clamp_bounds (n : ℕ) (hn : 1 ≤ n) (q : ℚ) :
    0 ≤ jsRound (max 0 (min ((n : ℚ) - 1) q)) ∧
      jsRound (max 0 (min ((n : ℚ) - 1) q)) ≤ (n : ℤ) - 1 := by
  constructor
  · have h0 : (0 : ℚ) ≤ max 0 (min ((n : ℚ) - 1) q) := le_max_left _ _
    have := jsRound_mono h0
    rwa [jsRound_zero] at this
  · have h1 : max 0 (min ((n : ℚ) - 1) q) ≤ (n : ℚ) - 1 := by
      apply max_le
      · have : (1 : ℚ) ≤ (n : ℚ) := by exact_mod_cast hn
        linarith
      · exact min_le_left _ _
    have h3 : jsRound ((n : ℚ) - 1) = (n : ℤ) - 1 := by
      have h2 : ((n : ℚ) - 1) = (((n : ℤ) - 1 : ℤ) : ℚ) := by push_cast; ring
      rw [h2, jsRound_intCast]
    calc jsRound (max 0 (min ((n : ℚ) - 1) q)) ≤ jsRound ((n : ℚ) - 1) := jsRound_mono h1
      _ = (n : ℤ) - 1 := h3

theorem foldl_add_sub (f g : ℕ → ℚ) :
    ∀ (l : List ℕ) (a : ℚ),
      l.foldl (fun acc i => acc + f i - g i) a = a + (l.map fun i => f i - g i).sum := by
  intro l
  induction l with
  | nil => intro a; simp
  | cons x xs ih =>
      intro a
      simp only [List.foldl_cons, List.map_cons, List.sum_cons]
      rw [ih]
      ring

theorem list_map_range_sum (f : ℕ → ℚ) (n : ℕ) :
    ((List.range n).map f).sum = ∑ i ∈ Finset.range n, f i := by
  induction n with
  | zero => simp
  | succ n ih => rw [List.range_succ, Finset.sum_range_succ]; simp [ih]

theorem shoelaceSum_eq_spec (pts : List Point) : shoelaceSum pts = shoelaceSpec pts := by
  have h1 : shoelaceSum pts = (List.range pts.length).foldl
      (fun acc i => acc +
        (pts.getD i default).imageX * (pts.getD ((i + 1) % pts.length) default).imageY -
        (pts.getD ((i + 1) % pts.length) default).imageX * (pts.getD i default).imageY) 0 := rfl
  rw [h1,
    foldl_add_sub
      (fun i => (pts.getD i default).imageX * (pts.getD ((i + 1) % pts.length) default).imageY)
      (fun i => (pts.getD ((i + 1) % pts.length) default).imageX * (pts.getD i default).imageY),
    list_map_range_sum]
  simp [shoelaceSpec]

theorem recalcMeasurement_points (sp : Option (ℚ × ℚ)) (m : Measurement) :
    (recalcMeasurement sp m).points = m.points := rfl

theorem recalcMeasurement_id (sp : Option (ℚ × ℚ)) (m : Measurement) :
    (recalcMeasurement sp m).id = m.id := rfl

theorem recalcMeasurement_type (sp : Option (ℚ × ℚ)) (m : Measurement) :
    (recalcMeasurement sp m).type = m.type := rfl

theorem recalcAll_pixelSpacing (s : EngineState) :
    (recalculateAllMeasurements s).pixelSpacing = s.pixelSpacing := rfl

theorem recalcAll_map_field {α : Type} (s : EngineState) (f : Measurement → α)
    (hf : ∀ sp m, f (recalcMeasurement sp m) = f m) :
    (recalculateAllMeasurements s).measurements.map f = s.measurements.map f := by
  unfold recalculateAllMeasurements
  rw [List.map_map]
  congr 1
  funext m
  exact hf _ m

/-! ### C2: round trip of the coordinate conversions -/

/-- C2 (amended): for every transform with `scale ≠ 0`, `canvasToImage` is the
exact algebraic inverse of `imageToCanvas` on the unrounded coordinates, and
the `imageX`/`imageY` fields returned by the round trip are exactly
`Math.round` of the input coordinates — exact on integer inputs, but off by
up to half a pixel in general. -/
theorem conversion_roundtrip_exact_up_to_rounding (t : Transform)
    (hs : t.scale ≠ 0) (w h : ℕ) (cw ch x y : ℚ) :
    canvasToImageRawX t w cw (imageToCanvasCoords t w h cw ch x y).1 = x ∧
    canvasToImageRawY t h ch (imageToCanvasCoords t w h cw ch x y).2 = y ∧
    (canvasToImageCoords t w h cw ch (imageToCanvasCoords t w h cw ch x y).1
      (imageToCanvasCoords t w h cw ch x y).2).imageX = jsRound x ∧
    (canvasToImageCoords t w h cw ch (imageToCanvasCoords t w h cw ch x y).1
      (imageToCanvasCoords t w h cw ch x y).2).imageY = jsRound y := by
  have hx : canvasToImageRawX t w cw (imageToCanvasCoords t w h cw ch x y).1 = x := by
    unfold canvasToImageRawX imageToCanvasCoords
    field_simp
    ring
  have hy : canvasToImageRawY t h ch (imageToCanvasCoords t w h cw ch x y).2 = y := by
    unfold canvasToImageRawY imageToCanvasCoords
    field_simp
    ring
  refine ⟨hx, hy, ?_, ?_⟩ <;> simp [canvasToImageCoords, hx, hy]

/-- Witness for C2 at the concrete transform `⟨2, 3, 4, 0⟩`. -/
theorem conversion_roundtrip_exact_up_to_rounding_witness :
    canvasToImageRawX ⟨2, 3, 4, 0⟩ 10 100
        (imageToCanvasCoords ⟨2, 3, 4, 0⟩ 10 10 100 100 5 6).1 = 5 ∧
    canvasToImageRawY ⟨2, 3, 4, 0⟩ 10 100
        (imageToCanvasCoords ⟨2, 3, 4, 0⟩ 10 10 100 100 5 6).2 = 6 ∧
    (canvasToImageCoords ⟨2, 3, 4, 0⟩ 10 10 100 100
        (imageToCanvasCoords ⟨2, 3, 4, 0⟩ 10 10 100 100 5 6).1
        (imageToCanvasCoords ⟨2, 3, 4, 0⟩ 10 10 100 100 5 6).2).imageX = jsRound 5 ∧
    (canvasToImageCoords ⟨2, 3, 4, 0⟩ 10 10 100 100
        (imageToCanvasCoords ⟨2, 3, 4, 0⟩ 10 10 100 100 5 6).1
        (imageToCanvasCoords ⟨2, 3, 4, 0⟩ 10 10 100 100 5 6).2).imageY = jsRound 6 :=
  conversion_roundtrip_exact_up_to_rounding ⟨2, 3, 4, 0⟩ (by norm_num) 10 10 100 100 5 6

/-- C2 counterexample: at the valid transform `scale = 1`, zero translation and
rotation, on a 100×100 image and 200×200 canvas, the round trip of the image
coordinate `(1/2, 0)` returns `1`, which is half a pixel away from the input —
far beyond floating-point epsilon. -/
theorem conversion_roundtrip_misses_epsilon :
    |((canvasToImageCoords ⟨1, 0, 0, 0⟩ 100 100 200 200
        (imageToCanvasCoords ⟨1, 0, 0, 0⟩ 100 100 200 200 (1 / 2) 0).1
        (imageToCanvasCoords ⟨1, 0, 0, 0⟩ 100 100 200 200 (1 / 2) 0).2).imageX : ℚ)
      - 1 / 2| > machineEps := by
  have h2 : (canvasToImageCoords ⟨1, 0, 0, 0⟩ 100 100 200 200
      (imageToCanvasCoords ⟨1, 0, 0, 0⟩ 100 100 200 200 (1 / 2) 0).1
      (imageToCanvasCoords ⟨1, 0, 0, 0⟩ 100 100 200 200 (1 / 2) 0).2).imageX = 1 := by
    norm_num [canvasToImageCoords, imageToCanvasCoords, canvasToImageRawX,
      canvasToImageRawY, jsRound]
  rw [h2, show |((1 : ℤ) : ℚ) - 1 / 2| = 1 / 2 by rw [abs_of_pos] <;> norm_num]
  norm_num [machineEps]

/-! ### C3: clamping of converted coordinates -/

/-- C3 (amended): the `x`/`y` fields of `canvasToImageCoords` — the ones used
for pixel read-out — always lie within `[0, w-1] × [0, h-1]`. (The captured
measurement points, by contrast, store the unclamped `imageX`/`imageY`; see
the counterexample.) -/
theorem readout_coords_clamped_in_bounds (t : Transform) (w h : ℕ)
    (hw : 1 ≤ w) (hh : 1 ≤ h) (cw ch canvasX canvasY : ℚ) :
    (0 ≤ (canvasToImageCoords t w h cw ch canvasX canvasY).x ∧
      (canvasToImageCoords t w h cw ch canvasX canvasY).x ≤ (w : ℤ) - 1) ∧
    (0 ≤ (canvasToImageCoords t w h cw ch canvasX canvasY).y ∧
      (canvasToImageCoords t w h cw ch canvasX canvasY).y ≤ (h : ℤ) - 1) := by
  constructor
  · simpa [canvasToImageCoords] using
      jsRound_clamp_bounds w hw (canvasToImageRawX t w cw canvasX)
  · simpa [canvasToImageCoords] using
      jsRound_clamp_bounds h hh (canvasToImageRawY t h ch canvasY)

/-- Witness for C3 on a 100×100 image. -/
theorem readout_coords_clamped_in_bounds_witness :
    (0 ≤ (canvasToImageCoords ⟨1, 2, 3, 0⟩ 100 100 200 200 0 0).x ∧
      (canvasToImageCoords ⟨1, 2, 3, 0⟩ 100 100 200 200 0 0).x ≤ (100 : ℤ) - 1) ∧
    (0 ≤ (canvasToImageCoords ⟨1, 2, 3, 0⟩ 100 100 200 200 0 0).y ∧
      (canvasToImageCoords ⟨1, 2, 3, 0⟩ 100 100 200 200 0 0).y ≤ (100 : ℤ) - 1) :=
  readout_coords_clamped_in_bounds ⟨1, 2, 3, 0⟩ 100 100 (by norm_num) (by norm_num)
    200 200 0 0

/-- C3 counterexample: a click at canvas position `(0, 100)` on a 100×100
image shown 1:1 on a 200×200 canvas converts to raw image x `-50`; the
captured measurement point (module `normalizePoint` followed by the store's
`normalizePoint`) stores `imageX = -50`, an out-of-bounds pixel reference. -/
theorem captured_point_escapes_bounds :
    (normalizePoint (moduleNormalizePoint
        (canvasToImageCoords ⟨1, 0, 0, 0⟩ 100 100 200 200 0 100) 0)).imageX = -50 ∧
    ¬ (0 ≤ (normalizePoint (moduleNormalizePoint
        (canvasToImageCoords ⟨1, 0, 0, 0⟩ 100 100 200 200 0 100) 0)).imageX) := by
  have h1 : (normalizePoint (moduleNormalizePoint
      (canvasToImageCoords ⟨1, 0, 0, 0⟩ 100 100 200 200 0 100) 0)).imageX = -50 := by
    norm_num [normalizePoint, moduleNormalizePoint, canvasToImageCoords,
      canvasToImageRawX, canvasToImageRawY, jsRound, jsOr, jsSelect]
  exact ⟨h1, by rw [h1]; norm_num⟩

/-! ### C1: image layer vs overlay layer point mapping -/

/-- C1 (amended): the overlay render pass omits the `rotate` step that the
image layer applies, so the two point mappings agree exactly on every
TransformState with `scale > 0` whose `rotationDegrees` is `0` (the only
value the application ever assigns), for every image dimension, canvas
dimension, and image-space point; for nonzero rotation they diverge (see the
counterexample). -/
theorem overlay_matches_image_layer_at_zero_rotation (t : Transform)
    (_hscale : 0 < t.scale) (hrot : t.rotation = 0) (w h : ℕ) (cw ch : ℚ)
    (p : ℝ × ℝ) :
    imageLayerPointMap t w h cw ch p = overlayPointMap t w h cw ch p := by
  have hθ : rotationRadians t = 0 := by
    unfold rotationRadians
    rw [hrot]
    push_cast
    ring
  unfold imageLayerPointMap overlayPointMap
  rw [hθ]
  simp [Real.cos_zero, Real.sin_zero]

/-- Witness for C1 at the concrete transform `⟨1, 0, 0, 0⟩` and point (3,4). -/
theorem overlay_matches_image_layer_at_zero_rotation_witness :
    imageLayerPointMap ⟨1, 0, 0, 0⟩ 100 100 200 200 (3, 4) =
      overlayPointMap ⟨1, 0, 0, 0⟩ 100 100 200 200 (3, 4) :=
  overlay_matches_image_layer_at_zero_rotation ⟨1, 0, 0, 0⟩ (by norm_num) rfl
    100 100 200 200 (3, 4)

/-- C1 counterexample: at `rotationDegrees = 90` (scale 1, no translation,
100×100 image on a 200×200 canvas) the image layer maps the image origin to
`(150, 50)` while the overlay maps it to `(50, 50)`: the two point-mapping
functions are not equal, refuting the claim for nonzero rotation. -/
theorem overlay_diverges_from_image_layer_at_rotation90 :
    imageLayerPointMap ⟨1, 0, 0, 90⟩ 100 100 200 200 (0, 0) ≠
      overlayPointMap ⟨1, 0, 0, 90⟩ 100 100 200 200 (0, 0) := by
  have hθ : rotationRadians ⟨1, 0, 0, 90⟩ = Real.pi / 2 := by
    unfold rotationRadians
    push_cast
    ring
  intro hEq
  have h1 := congrArg Prod.fst hEq
  norm_num [imageLayerPointMap, overlayPointMap, hθ, Real.cos_pi_div_two,
    Real.sin_pi_div_two] at h1

/-! ### C4: polygon area -/

/-- C4: on the square `(0,0),(10,0),(10,10),(0,10)` the area computation
returns pixel area `100` with unit `px²` without calibration and value `400`
with unit `mm²` with pixel spacing `(2,2)`; the legacy controller's
`calculateArea` agrees; and in general the pixel area is the absolute
Shoelace sum halved while the calibrated area is the pixel area times
`rowSpacing·colSpacing`. -/
theorem area_square_shoelace_calibration :
    (calculateArea squarePoints none).pixelArea = 100 ∧
    (calculateArea squarePoints none).unit = "px²" ∧
    (calculateArea squarePoints none).value = 100 ∧
    (calculateArea squarePoints (some (2, 2))).realArea = some 400 ∧
    (calculateArea squarePoints (some (2, 2))).unit = "mm²" ∧
    (calculateArea squarePoints (some (2, 2))).value = 400 ∧
    legacyCalculateArea squarePoints = 100 ∧
    (∀ pts sp, (calculateArea pts sp).pixelArea = |shoelaceSpec pts| / 2) ∧
    (∀ pts r c, (calculateArea pts (some (r, c))).realArea =
      some ((calculateArea pts (some (r, c))).pixelArea * r * c)) := by
  have hshoe : shoelaceSum squarePoints = 200 := by
    norm_num [shoelaceSum, squarePoints, mkPt, List.range_succ, List.getD]
  refine ⟨?_, ?_, ?_, ?_, ?_, ?_, ?_, ?_, ?_⟩
  · norm_num [calculateArea, hshoe]
  · norm_num [calculateArea]
  · norm_num [calculateArea, hshoe, jsOr]
  · norm_num [calculateArea, hshoe]
  · norm_num [calculateArea]
  · norm_num [calculateArea, hshoe, jsOr]
  · unfold legacyCalculateArea
    rw [if_neg (by norm_num [squarePoints]), hshoe]
    norm_num
  · intro pts sp
    simp [calculateArea, shoelaceSum_eq_spec]
  · intro pts r c
    simp [calculateArea]

/-! ### C5: angle computation -/

open Classical in
theorem calculateAngle_value_eq (p1 vertex p2 : Point) :
    (calculateAngle [p1, vertex, p2]).value =
      if vecMag p1 vertex = 0 ∨ vecMag p2 vertex = 0 then 0
      else
        (if Real.arccos (max (-1) (min 1 ((vecDot p1 p2 vertex : ℝ) /
              (vecMag p1 vertex * vecMag p2 vertex)))) * 180 / Real.pi > 180 then
          360 - Real.arccos (max (-1) (min 1 ((vecDot p1 p2 vertex : ℝ) /
            (vecMag p1 vertex * vecMag p2 vertex)))) * 180 / Real.pi
        else
          Real.arccos (max (-1) (min 1 ((vecDot p1 p2 vertex : ℝ) /
            (vecMag p1 vertex * vecMag p2 vertex)))) * 180 / Real.pi) := by
  simp only [calculateAngle]
  rw [apply_ite AngleResult.value]
  rfl

open Classical in
theorem legacyCalculateAngle_eq (p1 vertex p2 : Point) :
    legacyCalculateAngle p1 vertex p2 =
      if vecMag p1 vertex = 0 ∨ vecMag p2 vertex = 0 then 0
      else
        Real.arccos (max (-1) (min 1 ((vecDot p1 p2 vertex : ℝ) /
          (vecMag p1 vertex * vecMag p2 vertex)))) * 180 / Real.pi := rfl

theorem angleDeg_bounds (c : ℝ) :
    0 ≤ Real.arccos c * 180 / Real.pi ∧ Real.arccos c * 180 / Real.pi ≤ 180 := by
  constructor
  · exact div_nonneg (mul_nonneg (Real.arccos_nonneg c) (by norm_num)) Real.pi_pos.le
  · rw [div_le_iff₀ Real.pi_pos]
    have h2 := Real.arccos_le_pi c
    linarith

/-- C5: the angle value of `calculateAngle` always lies in `[0, 180]`; when
either vertex-based vector has zero magnitude it is exactly `0`; otherwise it
is `acos(clamp(dot/(mag1·mag2), -1, 1))` converted to degrees; and the legacy
controller's `calculateAngle` returns the same value. -/
theorem angle_range_degenerate_formula (p1 vertex p2 : Point) :
    (0 ≤ (calculateAngle [p1, vertex, p2]).value ∧
      (calculateAngle [p1, vertex, p2]).value ≤ 180) ∧
    ((vecMag p1 vertex = 0 ∨ vecMag p2 vertex = 0) →
      (calculateAngle [p1, vertex, p2]).value = 0) ∧
    (¬ (vecMag p1 vertex = 0 ∨ vecMag p2 vertex = 0) →
      (calculateAngle [p1, vertex, p2]).value =
        Real.arccos (max (-1) (min 1 ((vecDot p1 p2 vertex : ℝ) /
          (vecMag p1 vertex * vecMag p2 vertex)))) * 180 / Real.pi) ∧
    legacyCalculateAngle p1 vertex p2 = (calculateAngle [p1, vertex, p2]).value := by
  have hb := angleDeg_bounds (max (-1) (min 1 ((vecDot p1 p2 vertex : ℝ) /
    (vecMag p1 vertex * vecMag p2 vertex))))
  have hnotgt : ¬ (Real.arccos (max (-1) (min 1 ((vecDot p1 p2 vertex : ℝ) /
      (vecMag p1 vertex * vecMag p2 vertex)))) * 180 / Real.pi > 180) :=
    not_lt.mpr hb.2
  refine ⟨?_, ?_, ?_, ?_⟩
  · rw [calculateAngle_value_eq]
    by_cases hdeg : vecMag p1 vertex = 0 ∨ vecMag p2 vertex = 0
    · rw [if_pos hdeg]
      norm_num
    · rw [if_neg hdeg, if_neg hnotgt]
      exact hb
  · intro hdeg
    rw [calculateAngle_value_eq, if_pos hdeg]
  · intro hdeg
    rw [calculateAngle_value_eq, if_neg hdeg, if_neg hnotgt]
  · rw [calculateAngle_value_eq, legacyCalculateAngle_eq]
    by_cases hdeg : vecMag p1 vertex = 0 ∨ vecMag p2 vertex = 0
    · rw [if_pos hdeg, if_pos hdeg]
    · rw [if_neg hdeg, if_neg hdeg, if_neg hnotgt]

/-- Witness for C5: a degenerate angle (first point equal to the vertex)
evaluates to exactly `0`. -/
theorem angle_range_degenerate_formula_witness :
    (calculateAngle [mkPt 0 0, mkPt 0 0, mkPt 1 0]).value = 0 :=
  (angle_range_degenerate_formula (mkPt 0 0) (mkPt 0 0) (mkPt 1 0)).2.1
    (Or.inl (by simp [vecMag, mkPt]))

/-! ### C6: point-count validation in the store -/

/-- C6: each `create…Measurement` validates the point count for its type. On
violation it fails with `invalidPointCount` and leaves the state — collection
and id counter — unchanged; on success it bumps the id counter, stores a
measurement carrying the next id, the normalized points, and the
value/unit/label derived from the current calibration, and returns it. -/
theorem create_point_count_validation (s : EngineState) (pts : List RawPoint) :
    (pts.length ≠ 2 →
      createDistanceMeasurement pts s = (s, Except.error JsError.invalidPointCount)) ∧
    (pts.length ≠ 3 →
      createAngleMeasurement pts s = (s, Except.error JsError.invalidPointCount)) ∧
    (pts.length < 3 →
      createAreaMeasurement pts s = (s, Except.error JsError.invalidPointCount)) ∧
    (pts.length = 2 → ∃ m : Measurement,
      createDistanceMeasurement pts s =
        ({ measurements := s.measurements ++ [m], pixelSpacing := s.pixelSpacing,
           measurementId := s.measurementId + 1 }, Except.ok m) ∧
      m.id = s.measurementId + 1 ∧ m.type = MeasType.distance ∧
      m.points = pts.map normalizePoint ∧
      m.value = derivedValue MeasType.distance (pts.map normalizePoint) s.pixelSpacing ∧
      m.unit = derivedUnit MeasType.distance (pts.map normalizePoint) s.pixelSpacing ∧
      m.label = derivedLabel MeasType.distance (pts.map normalizePoint) s.pixelSpacing) ∧
    (pts.length = 3 → ∃ m : Measurement,
      createAngleMeasurement pts s =
        ({ measurements := s.measurements ++ [m], pixelSpacing := s.pixelSpacing,
           measurementId := s.measurementId + 1 }, Except.ok m) ∧
      m.id = s.measurementId + 1 ∧ m.type = MeasType.angle ∧
      m.points = pts.map normalizePoint ∧
      m.value = derivedValue MeasType.angle (pts.map normalizePoint) s.pixelSpacing ∧
      m.unit = derivedUnit MeasType.angle (pts.map normalizePoint) s.pixelSpacing ∧
      m.label = derivedLabel MeasType.angle (pts.map normalizePoint) s.pixelSpacing) ∧
    (3 ≤ pts.length → ∃ m : Measurement,
      createAreaMeasurement pts s =
        ({ measurements := s.measurements ++ [m], pixelSpacing := s.pixelSpacing,
           measurementId := s.measurementId + 1 }, Except.ok m) ∧
      m.id = s.measurementId + 1 ∧ m.type = MeasType.area ∧
      m.points = pts.map normalizePoint ∧
      m.value = derivedValue MeasType.area (pts.map normalizePoint) s.pixelSpacing ∧
      m.unit = derivedUnit MeasType.area (pts.map normalizePoint) s.pixelSpacing ∧
      m.label = derivedLabel MeasType.area (pts.map normalizePoint) s.pixelSpacing) := by
  refine ⟨?_, ?_, ?_, ?_, ?_, ?_⟩
  · intro h
    unfold createDistanceMeasurement
    rw [if_pos h]
  · intro h
    unfold createAngleMeasurement
    rw [if_pos h]
  · intro h
    unfold createAreaMeasurement
    rw [if_pos h]
  · intro h
    unfold createDistanceMeasurement
    rw [if_neg (not_not_intro h)]
    exact ⟨_, rfl, rfl, rfl, rfl, rfl, rfl, rfl⟩
  · intro h
    unfold createAngleMeasurement
    rw [if_neg (not_not_intro h)]
    exact ⟨_, rfl, rfl, rfl, rfl, rfl, rfl, rfl⟩
  · intro h
    unfold createAreaMeasurement
    rw [if_neg (not_lt.mpr h)]
    exact ⟨_, rfl, rfl, rfl, rfl, rfl, rfl, rfl⟩

/-- Witness for C6: an empty point list is rejected without touching the
state; a two-point list is stored with id 1. -/
theorem create_point_count_validation_witness :
    (createDistanceMeasurement [] ⟨[], none, 0⟩ =
      (⟨[], none, 0⟩, Except.error JsError.invalidPointCount)) ∧
    (∃ m : Measurement,
      createDistanceMeasurement
          [⟨some 0, some 0, some 3, some 4, none, none, none⟩,
           ⟨some 1, some 1, some 6, some 8, none, none, none⟩] ⟨[], none, 0⟩ =
        ({ measurements := ([] : List Measurement) ++ [m], pixelSpacing := none,
           measurementId := 0 + 1 }, Except.ok m) ∧
      m.id = 0 + 1 ∧ m.type = MeasType.distance ∧
      m.points = [⟨some 0, some 0, some 3, some 4, none, none, none⟩,
        (⟨some 1, some 1, some 6, some 8, none, none, none⟩ : RawPoint)].map normalizePoint ∧
      m.value = derivedValue MeasType.distance
        ([⟨some 0, some 0, some 3, some 4, none, none, none⟩,
          (⟨some 1, some 1, some 6, some 8, none, none, none⟩ : RawPoint)].map normalizePoint) none ∧
      m.unit = derivedUnit MeasType.distance
        ([⟨some 0, some 0, some 3, some 4, none, none, none⟩,
          (⟨some 1, some 1, some 6, some 8, none, none, none⟩ : RawPoint)].map normalizePoint) none ∧
      m.label = derivedLabel MeasType.distance
        ([⟨some 0, some 0, some 3, some 4, none, none, none⟩,
          (⟨some 1, some 1, some 6, some 8, none, none, none⟩ : RawPoint)].map normalizePoint) none) :=
  ⟨(create_point_count_validation ⟨[], none, 0⟩ []).1 (by norm_num),
   (create_point_count_validation ⟨[], none, 0⟩
      [⟨some 0, some 0, some 3, some 4, none, none, none⟩,
       ⟨some 1, some 1, some 6, some 8, none, none, none⟩]).2.2.2.1 rfl⟩

/-! ### C8: recalibration leaves point coordinates unchanged -/

theorem applyParsedSpacing_measurements (input : SpacingInput) (s : EngineState) :
    (applyParsedSpacing input s).measurements = s.measurements := by
  rcases input with fields | values | _
  · rcases fields with _ | ⟨a, _ | ⟨b, rest⟩⟩
    · rfl
    · cases a <;> rfl
    · rcases rest with _ | ⟨c, rest2⟩
      · cases a <;> cases b <;> rfl
      · cases a <;> cases b <;> rfl
  · rcases values with _ | ⟨a, _ | ⟨b, rest⟩⟩
    · rfl
    · rfl
    · rcases rest with _ | ⟨c, rest2⟩ <;> rfl
  · rfl

theorem setPixelSpacing_map_field {α : Type} (input : SpacingInput)
    (s : EngineState) (f : Measurement → α)
    (hf : ∀ sp m, f (recalcMeasurement sp m) = f m) :
    (setPixelSpacing input s).measurements.map f = s.measurements.map f := by
  unfold setPixelSpacing
  dsimp only
  split
  · rw [recalcAll_map_field _ f hf, applyParsedSpacing_measurements]
  · rw [applyParsedSpacing_measurements]

theorem recalcAll_derived_maps (s : EngineState) :
    ((recalculateAllMeasurements s).measurements.map Measurement.value =
      (recalculateAllMeasurements s).measurements.map
        (fun m => derivedValue m.type m.points
          (recalculateAllMeasurements s).pixelSpacing)) ∧
    ((recalculateAllMeasurements s).measurements.map Measurement.unit =
      (recalculateAllMeasurements s).measurements.map
        (fun m => derivedUnit m.type m.points
          (recalculateAllMeasurements s).pixelSpacing)) ∧
    ((recalculateAllMeasurements s).measurements.map Measurement.label =
      (recalculateAllMeasurements s).measurements.map
        (fun m => derivedLabel m.type m.points
          (recalculateAllMeasurements s).pixelSpacing)) := by
  unfold recalculateAllMeasurements
  dsimp only
  refine ⟨?_, ?_, ?_⟩ <;>
    · rw [List.map_map, List.map_map]
      congr 1

/-- C8: after a calibration change (`setPixelSpacing` followed by
`recalculateAllMeasurements`), every stored measurement keeps its point list
and its id unchanged, while its `value`, `unit` and `label` equal the fresh
derivation from its own (unchanged) points and the new calibration. -/
theorem recalibration_preserves_point_coords (s : EngineState)
    (input : SpacingInput) :
    ((recalculateAllMeasurements (setPixelSpacing input s)).measurements.map
        Measurement.points = s.measurements.map Measurement.points) ∧
    ((recalculateAllMeasurements (setPixelSpacing input s)).measurements.map
        Measurement.id = s.measurements.map Measurement.id) ∧
    ((recalculateAllMeasurements (setPixelSpacing input s)).measurements.map
        Measurement.value =
      (recalculateAllMeasurements (setPixelSpacing input s)).measurements.map
        (fun m => derivedValue m.type m.points
          (recalculateAllMeasurements (setPixelSpacing input s)).pixelSpacing)) ∧
    ((recalculateAllMeasurements (setPixelSpacing input s)).measurements.map
        Measurement.unit =
      (recalculateAllMeasurements (setPixelSpacing input s)).measurements.map
        (fun m => derivedUnit m.type m.points
          (recalculateAllMeasurements (setPixelSpacing input s)).pixelSpacing)) ∧
    ((recalculateAllMeasurements (setPixelSpacing input s)).measurements.map
        Measurement.label =
      (recalculateAllMeasurements (setPixelSpacing input s)).measurements.map
        (fun m => derivedLabel m.type m.points
          (recalculateAllMeasurements (setPixelSpacing input s)).pixelSpacing)) := by
  have h1 := recalcAll_derived_maps (setPixelSpacing input s)
  refine ⟨?_, ?_, h1.1, h1.2.1, h1.2.2⟩
  · rw [recalcAll_map_field _ _ recalcMeasurement_points,
      setPixelSpacing_map_field input s _ recalcMeasurement_points]
  · rw [recalcAll_map_field _ _ recalcMeasurement_id,
      setPixelSpacing_map_field input s _ recalcMeasurement_id]

/-! ### C9: calibration input handling -/

theorem setPixelSpacing_pixelSpacing (input : SpacingInput) (s : EngineState) :
    (setPixelSpacing input s).pixelSpacing =
      (applyParsedSpacing input s).pixelSpacing := by
  unfold setPixelSpacing
  dsimp only
  split <;> rfl

theorem applyParsedSpacing_str_malformed (s : EngineState)
    (fields : List (Option ℚ)) (h : ¬ ∃ a b : ℚ, fields = [some a, some b]) :
    applyParsedSpacing (SpacingInput.str fields) s = s := by
  rcases fields with _ | ⟨a, _ | ⟨b, rest⟩⟩
  · rfl
  · cases a <;> rfl
  · rcases rest with _ | ⟨c, rest2⟩
    · cases a with
      | none => cases b <;> rfl
      | some va =>
          cases b with
          | none => rfl
          | some vb => exact absurd ⟨va, vb, rfl⟩ h
    · cases a <;> cases b <;> rfl

theorem applyParsedSpacing_arr_wrong_length (s : EngineState)
    (values : List ℚ) (h : values.length ≠ 2) :
    applyParsedSpacing (SpacingInput.arr values) s = s := by
  rcases values with _ | ⟨a, _ | ⟨b, rest⟩⟩
  · rfl
  · rfl
  · rcases rest with _ | ⟨c, rest2⟩
    · exact absurd (rfl : ([a, b] : List ℚ).length = 2) h
    · rfl

/-- C9 (amended): `setPixelSpacing` is modelled as a total state transformer —
the string parsing is wrapped in `try/catch` and the array branch cannot
throw. A string input that does not parse to exactly two non-NaN floats, an
array of length other than two, and any non-string non-array input leave the
stored calibration exactly as it was: unset only if it was never set (the
claim's "left unset" holds only from the initial unset state). A two-element
array is stored without any positivity check (see the counterexample). -/
theorem setPixelSpacing_malformed_no_update (s : EngineState)
    (fields : List (Option ℚ)) (values : List ℚ) :
    ((¬ ∃ a b : ℚ, fields = [some a, some b]) →
      (setPixelSpacing (SpacingInput.str fields) s).pixelSpacing = s.pixelSpacing) ∧
    (values.length ≠ 2 →
      (setPixelSpacing (SpacingInput.arr values) s).pixelSpacing = s.pixelSpacing) ∧
    ((setPixelSpacing SpacingInput.other s).pixelSpacing = s.pixelSpacing) ∧
    (s.pixelSpacing = none → (¬ ∃ a b : ℚ, fields = [some a, some b]) →
      (setPixelSpacing (SpacingInput.str fields) s).pixelSpacing = none) := by
  refine ⟨?_, ?_, ?_, ?_⟩
  · intro h
    rw [setPixelSpacing_pixelSpacing, applyParsedSpacing_str_malformed s fields h]
  · intro h
    rw [setPixelSpacing_pixelSpacing, applyParsedSpacing_arr_wrong_length s values h]
  · rw [setPixelSpacing_pixelSpacing]
    rfl
  · intro hnone h
    rw [setPixelSpacing_pixelSpacing, applyParsedSpacing_str_malformed s fields h,
      hnone]

/-- Witness for C9: a one-field string and a one-element array leave the
never-set calibration unset. -/
theorem setPixelSpacing_malformed_no_update_witness :
    ((setPixelSpacing (SpacingInput.str [some 1]) ⟨[], none, 0⟩).pixelSpacing =
      none) ∧
    ((setPixelSpacing (SpacingInput.arr [5]) ⟨[], none, 0⟩).pixelSpacing =
      (⟨[], none, 0⟩ : EngineState).pixelSpacing) :=
  ⟨(setPixelSpacing_malformed_no_update ⟨[], none, 0⟩ [some 1] [5]).2.2.2 rfl
      (by rintro ⟨a, b, hab⟩; simp at hab),
   (setPixelSpacing_malformed_no_update ⟨[], none, 0⟩ [some 1] [5]).2.1
      (by norm_num)⟩

/-- C9 counterexample: with a previously stored calibration `(2, 2)`, the
malformed string `"abc"` (one NaN field) leaves the calibration *set* — not
unset as the claim states — so later measurements still compute in
millimetres; and the array `[-1, -2]`, which is not a pair of positive
floats, is stored as the calibration rather than being rejected. -/
theorem setPixelSpacing_stale_or_nonpositive_calibration :
    ((setPixelSpacing (SpacingInput.str [none]) ⟨[], some (2, 2), 0⟩).pixelSpacing =
        some (2, 2) ∧ (some ((2 : ℚ), (2 : ℚ)) : Option (ℚ × ℚ)) ≠ none) ∧
    ((setPixelSpacing (SpacingInput.arr [-1, -2]) ⟨[], none, 0⟩).pixelSpacing =
        some (-1, -2) ∧ ¬ (0 < (-1 : ℚ))) := by
  refine ⟨⟨?_, by simp⟩, ?_, by norm_num⟩
  · rw [setPixelSpacing_pixelSpacing]
    rfl
  · rw [setPixelSpacing_pixelSpacing]
    rfl

/-! ### C10: the zero-coordinate fallback of normalizePoint -/

theorem jsOr_eq_specStoredCoord (a b : Option ℚ) :
    jsOr a (jsOr b 0) = specStoredCoord a b := by
  cases a with
  | none =>
      cases b with
      | none => rfl
      | some w => by_cases hw : w = 0 <;> simp [jsOr, specStoredCoord, hw]
  | some v =>
      by_cases hv : v = 0
      · cases b with
        | none => simp [jsOr, specStoredCoord, hv]
        | some w => by_cases hw : w = 0 <;> simp [jsOr, specStoredCoord, hv, hw]
      · simp [jsOr, specStoredCoord, hv]

/-- C10: the stored coordinates of a point passed to the store's create or
update are `p.imageX` when present and nonzero, else `p.x` when present and
nonzero, else `0` (and symmetrically for `imageY`); created and updated
measurements store exactly the so-normalized points; in particular a point on
the image's left/top edge (`imageX = 0`, here with viewer-space `x = 5`) is
stored with `imageX = 5`. -/
theorem stored_point_zero_coordinate_fallback (p : RawPoint) (s : EngineState)
    (pts : List RawPoint) (id : ℕ) :
    ((normalizePoint p).imageX = specStoredCoord p.imageX p.x) ∧
    ((normalizePoint p).imageY = specStoredCoord p.imageY p.y) ∧
    (pts.length = 2 → ∃ m : Measurement,
      (createDistanceMeasurement pts s).2 = Except.ok m ∧
      m.points = pts.map normalizePoint) ∧
    (∀ m : Measurement, (updateMeasurement id pts s).2 = Except.ok m →
      m.points = pts.map normalizePoint) ∧
    ((normalizePoint ⟨some 5, some 7, some 0, some 0, none, none, some 0⟩).imageX = 5 ∧
     (normalizePoint ⟨some 5, some 7, some 0, some 0, none, none, some 0⟩).imageY = 7) := by
  refine ⟨jsOr_eq_specStoredCoord p.imageX p.x, jsOr_eq_specStoredCoord p.imageY p.y,
    ?_, ?_, by norm_num [normalizePoint, jsOr]⟩
  · intro h
    unfold createDistanceMeasurement
    rw [if_neg (not_not_intro h)]
    exact ⟨_, rfl, rfl⟩
  · intro m
    unfold updateMeasurement
    cases hf : s.measurements.find? (fun x => x.id = id) with
    | none => simp
    | some m0 =>
        dsimp only
        intro hm
        cases hm
        rfl

/-- Witness for C10: the edge point `{x: 5, y: 7, imageX: 0, imageY: 0}` goes
through `createDistanceMeasurement` and is stored with `imageX = 5`. -/
theorem stored_point_zero_coordinate_fallback_witness :
    ∃ m : Measurement,
      (createDistanceMeasurement
          [⟨some 5, some 7, some 0, some 0, none, none, some 0⟩,
           ⟨some 1, some 1, some 2, some 2, none, none, some 0⟩] ⟨[], none, 0⟩).2 =
        Except.ok m ∧
      m.points = [⟨some 5, some 7, some 0, some 0, none, none, some 0⟩,
        (⟨some 1, some 1, some 2, some 2, none, none, some 0⟩ : RawPoint)].map
          normalizePoint :=
  (stored_point_zero_coordinate_fallback
      ⟨some 5, some 7, some 0, some 0, none, none, some 0⟩ ⟨[], none, 0⟩
      [⟨some 5, some 7, some 0, some 0, none, none, some 0⟩,
       ⟨some 1, some 1, some 2, some 2, none, none, some 0⟩] 0).2.2.1 rfl

/-! ### C7: point capture and completion -/

theorem legacyRecalc_points (m : LegacyMeasurement) :
    (legacyRecalculateMeasurement m).points = m.points := by
  obtain ⟨ty, pts, mid, v, lb⟩ := m
  cases ty <;> dsimp only [legacyRecalculateMeasurement] <;> split <;> rfl

theorem legacyRecalc_type (m : LegacyMeasurement) :
    (legacyRecalculateMeasurement m).type = m.type := by
  obtain ⟨ty, pts, mid, v, lb⟩ := m
  cases ty <;> dsimp only [legacyRecalculateMeasurement] <;> split <;> rfl

theorem legacyRecalc_id (m : LegacyMeasurement) :
    (legacyRecalculateMeasurement m).id = m.id := by
  obtain ⟨ty, pts, mid, v, lb⟩ := m
  cases ty <;> dsimp only [legacyRecalculateMeasurement] <;> split <;> rfl

theorem createDistance_len (pts : List RawPoint) (s : EngineState)
    (h : pts.length = 2) :
    (createDistanceMeasurement pts s).1.measurements.length =
      s.measurements.length + 1 := by
  unfold createDistanceMeasurement
  rw [if_neg (not_not_intro h)]
  simp

/-- C7 (amended): while a measurement submode is active, each click appends
the clicked point to the in-progress point list; once the count reaches the
type's required size (2 for distance, 3 for angle) a completion runs exactly
once. In the legacy controller the completion pushes exactly one new
measurement, clears `currentPoints`, resets the submode to `None`, and
selects the new measurement. In the modular `MeasurementModule` the
completion calls the store's create exactly once and clears the in-progress
measurement, but it leaves the submode active and sets no selection. -/
theorem click_capture_completion_behavior (stL : LegacyState) (p : Point)
    (newId : ℕ) (ic : ImageCoords) (ts : ℕ) (stM : ModuleState)
    (c : CurrentMeasurement) :
    (stL.mode = some MeasType.distance → stL.currentPoints.length + 1 ≠ 2 →
      legacyHandleImageClick stL p newId =
        { stL with currentPoints := stL.currentPoints ++ [p] }) ∧
    (stL.mode = some MeasType.distance → stL.currentPoints.length + 1 = 2 →
      ∃ m : LegacyMeasurement,
        legacyHandleImageClick stL p newId =
          { mode := none, currentPoints := [],
            measurements := stL.measurements ++ [m],
            selectedMeasurement := some m, selectedPointIndex := -1 } ∧
        m.points = stL.currentPoints ++ [p] ∧ m.type = MeasType.distance ∧
        m.id = newId) ∧
    (stL.mode = some MeasType.angle → stL.currentPoints.length + 1 = 3 →
      ∃ m : LegacyMeasurement,
        legacyHandleImageClick stL p newId =
          { mode := none, currentPoints := [],
            measurements := stL.measurements ++ [m],
            selectedMeasurement := some m, selectedPointIndex := -1 } ∧
        m.points = stL.currentPoints ++ [p] ∧ m.type = MeasType.angle ∧
        m.id = newId) ∧
    (stM.mode = some MeasType.distance → stM.currentMeasurement = some c →
      c.type = MeasType.distance → c.points.length + 1 = 2 →
      ((moduleAddMeasurementPoint ic ts stM).engine.measurements.length =
          stM.engine.measurements.length + 1 ∧
       (moduleAddMeasurementPoint ic ts stM).currentMeasurement = none ∧
       (moduleAddMeasurementPoint ic ts stM).mode = some MeasType.distance)) := by
  refine ⟨?_, ?_, ?_, ?_⟩
  · intro hmode hlen
    obtain ⟨mode, cps, ms, sel, spi⟩ := stL
    dsimp only at hmode hlen ⊢
    subst hmode
    dsimp only [legacyHandleImageClick, legacyHandleMeasurementClick]
    rw [if_neg (show ¬ ((cps ++ [p]).length = 2) from by simpa using hlen)]
  · intro hmode hlen
    obtain ⟨mode, cps, ms, sel, spi⟩ := stL
    dsimp only at hmode hlen ⊢
    subst hmode
    dsimp only [legacyHandleImageClick, legacyHandleMeasurementClick]
    rw [if_pos (show (cps ++ [p]).length = 2 from by simpa using hlen)]
    dsimp only [legacyCompleteMeasurement]
    exact ⟨_, rfl, legacyRecalc_points _, legacyRecalc_type _, legacyRecalc_id _⟩
  · intro hmode hlen
    obtain ⟨mode, cps, ms, sel, spi⟩ := stL
    dsimp only at hmode hlen ⊢
    subst hmode
    dsimp only [legacyHandleImageClick, legacyHandleMeasurementClick]
    rw [if_pos (show (cps ++ [p]).length = 3 from by simpa using hlen)]
    dsimp only [legacyCompleteMeasurement]
    exact ⟨_, rfl, legacyRecalc_points _, legacyRecalc_type _, legacyRecalc_id _⟩
  · intro hmode hcur htype hlen
    obtain ⟨mmode, mcur, meng⟩ := stM
    dsimp only at hmode hcur ⊢
    subst hmode
    subst hcur
    dsimp only [moduleAddMeasurementPoint]
    have hcond : ((c.points ++ [moduleNormalizePoint ic ts]).length : ℕ∞) ≥
        requiredPoints MeasType.distance ∧ MeasType.distance ≠ MeasType.area := by
      constructor
      · have h2 : (c.points ++ [moduleNormalizePoint ic ts]).length = 2 := by
          simpa using hlen
        rw [h2]
        simp [requiredPoints]
      · simp
    rw [if_pos hcond]
    dsimp only [moduleCompleteMeasurement]
    rw [htype]
    refine ⟨?_, rfl, rfl⟩
    exact createDistance_len _ _ (by simpa using hlen)

/-- Witness for C7 at concrete legacy and modular states. -/
theorem click_capture_completion_behavior_witness :
    (∃ m : LegacyMeasurement,
      legacyHandleImageClick
          ⟨some MeasType.distance, [mkPt 0 0], [], none, -1⟩ (mkPt 3 4) 7 =
        { mode := none, currentPoints := [],
          measurements := ([] : List LegacyMeasurement) ++ [m],
          selectedMeasurement := some m, selectedPointIndex := -1 } ∧
      m.points = [mkPt 0 0] ++ [mkPt 3 4] ∧ m.type = MeasType.distance ∧
      m.id = 7) ∧
    ((moduleAddMeasurementPoint ⟨3, 4, 3, 4⟩ 1
        ⟨some MeasType.distance,
         some ⟨MeasType.distance, [⟨some 2, some 2, some 2, some 2, none, none, none⟩]⟩,
         ⟨[], none, 5⟩⟩).engine.measurements.length =
      (⟨[], none, 5⟩ : EngineState).measurements.length + 1 ∧
     (moduleAddMeasurementPoint ⟨3, 4, 3, 4⟩ 1
        ⟨some MeasType.distance,
         some ⟨MeasType.distance, [⟨some 2, some 2, some 2, some 2, none, none, none⟩]⟩,
         ⟨[], none, 5⟩⟩).currentMeasurement = none ∧
     (moduleAddMeasurementPoint ⟨3, 4, 3, 4⟩ 1
        ⟨some MeasType.distance,
         some ⟨MeasType.distance, [⟨some 2, some 2, some 2, some 2, none, none, none⟩]⟩,
         ⟨[], none, 5⟩⟩).mode = some MeasType.distance) :=
  ⟨(click_capture_completion_behavior
        ⟨some MeasType.distance, [mkPt 0 0], [], none, -1⟩ (mkPt 3 4) 7 ⟨3, 4, 3, 4⟩ 1
        ⟨some MeasType.distance,
         some ⟨MeasType.distance, [⟨some 2, some 2, some 2, some 2, none, none, none⟩]⟩,
         ⟨[], none, 5⟩⟩
        ⟨MeasType.distance, [⟨some 2, some 2, some 2, some 2, none, none, none⟩]⟩).2.1
      rfl rfl,
   (click_capture_completion_behavior
        ⟨some MeasType.distance, [mkPt 0 0], [], none, -1⟩ (mkPt 3 4) 7 ⟨3, 4, 3, 4⟩ 1
        ⟨some MeasType.distance,
         some ⟨MeasType.distance, [⟨some 2, some 2, some 2, some 2, none, none, none⟩]⟩,
         ⟨[], none, 5⟩⟩
        ⟨MeasType.distance, [⟨some 2, some 2, some 2, some 2, none, none, none⟩]⟩).2.2.2
      rfl rfl rfl rfl⟩

/-- C7 counterexample: in the modular `MeasurementModule`, completing a
distance measurement (second click) calls the store's create — the engine
gains one measurement and the in-progress state clears — but the submode is
*not* reset to `None`: it remains `distance`, refuting the claim. -/
theorem module_completion_keeps_submode :
    ((moduleAddMeasurementPoint ⟨1, 2, 1, 2⟩ 0
        ⟨some MeasType.distance,
         some ⟨MeasType.distance, [⟨some 0, some 0, some 1, some 1, none, none, none⟩]⟩,
         ⟨[], none, 0⟩⟩).engine.measurements.length = 1) ∧
    ((moduleAddMeasurementPoint ⟨1, 2, 1, 2⟩ 0
        ⟨some MeasType.distance,
         some ⟨MeasType.distance, [⟨some 0, some 0, some 1, some 1, none, none, none⟩]⟩,
         ⟨[], none, 0⟩⟩).currentMeasurement = none) ∧
    ((moduleAddMeasurementPoint ⟨1, 2, 1, 2⟩ 0
        ⟨some MeasType.distance,
         some ⟨MeasType.distance, [⟨some 0, some 0, some 1, some 1, none, none, none⟩]⟩,
         ⟨[], none, 0⟩⟩).mode = some MeasType.distance) ∧
    some MeasType.distance ≠ (none : Option MeasType) := by
  have hcond : ((([⟨some 0, some 0, some 1, some 1, none, none, none⟩] : List RawPoint)
      ++ [moduleNormalizePoint ⟨1, 2, 1, 2⟩ 0]).length : ℕ∞) ≥
      requiredPoints MeasType.distance ∧ MeasType.distance ≠ MeasType.area := by
    constructor
    · simp [requiredPoints]
    · simp
  refine ⟨?_, ?_, ?_, by simp⟩
  · dsimp only [moduleAddMeasurementPoint]
    rw [if_pos hcond]
    dsimp only [moduleCompleteMeasurement]
    unfold createDistanceMeasurement
    rw [if_neg (by simp)]
    simp
  · dsimp only [moduleAddMeasurementPoint]
    rw [if_pos hcond]
    rfl
  · dsimp only [moduleAddMeasurementPoint]
    rw [if_pos hcond]
    rfl

end DicomViewer
